import Mathlib

/-!
Shallow embedding of the go-api-gateway request pipeline and its supporting
components (service registry, IP whitelist, JWT authenticator, response cache,
rate limiters, circuit-breaker forward path), translated from the repository
sources, together with theorems settling the frozen claims about them.

Conventions of the embedding:
* Go strings are Lean `String`s; `strings.Split` is modelled by `goSplit`
  (single-character separators only, which is all this code base uses).
* Go maps are modelled either as association lists (`assocGet`/`assocSet`,
  used where iteration order of a sweep matters) or as functions
  `String → Option α` (the service registry).
* Byte slices are `List Nat`.
* External effects (the upstream HTTP client, the token-bucket `Allow` call,
  the JWT library's parse result, the wall clock) enter as explicit oracle
  parameters collected in `Env`.
* A Go `panic` (out-of-range index) is modelled by returning `none` from the
  function that would panic, propagated to the top of the handler.
-/

namespace ApiGateway

/-- Bytes of an HTTP body, one `Nat` per byte. -/
abbrev Bytes := List Nat

/-- Split a list of characters at every occurrence of `sep`, keeping empty
segments, with the semantics of Go's `strings.Split` for a one-character
separator: `splitChars '/' "/a".toList = [[], ['a']]`. -/
def splitChars (sep : Char) : List Char → List (List Char)
  | [] => [[]]
  | c :: rest =>
    let r := splitChars sep rest
    if c = sep then [] :: r
    else
      match r with
      | h :: t => (c :: h) :: t
      | [] => [[c]]

/-- Go's `strings.Split(s, sep)` for a one-character separator. -/
def goSplit (s : String) (sep : Char) : List String :=
  (splitChars sep s.toList).map (fun l => String.mk l)

/-- Prefix test on character lists (Go's `strings.HasPrefix`). -/
def hasPrefixChars : List Char → List Char → Bool
  | _, [] => true
  | [], _ :: _ => false
  | c :: cs, p :: ps => c = p && hasPrefixChars cs ps

/-- Go's `strings.HasPrefix(s, pre)`. -/
def goHasPrefix (s pre : String) : Bool :=
  hasPrefixChars s.toList pre.toList

/-- Go's `strings.Join(elems, "/")`-style joining with a separator string. -/
def joinSep (sep : String) : List String → String
  | [] => ""
  | [x] => x
  | x :: y :: rest => x ++ sep ++ joinSep sep (y :: rest)

/-- Lookup in an association list modelling a Go map (first match wins). -/
def assocGet {α : Type} : List (String × α) → String → Option α
  | [], _ => none
  | (k2, v) :: rest, k => if k2 = k then some v else assocGet rest k

/-- Insert-or-replace in an association list modelling a Go map. -/
def assocSet {α : Type} : List (String × α) → String → α → List (String × α)
  | [], k, v => [(k, v)]
  | (k2, v2) :: rest, k, v =>
    if k2 = k then (k, v) :: rest else (k2, v2) :: assocSet rest k v

/-- Model of Go's `net.SplitHostPort`, restricted to the unbracketed address
shapes this repository handles: exactly one colon splits host from port; no
colon is the `missing port in address` error; more than one colon is the
`too many colons in address` error. Bracketed IPv6 literals are not modelled
(they also yield `none`); no claim exercises them. -/
def splitHostPort (addr : String) : Option (String × String) :=
  match goSplit addr ':' with
  | [host, port] => some (host, port)
  | _ => none

/-! ## IP whitelist (server/feature, `IPWhiteList`) -/

/-- The per-service IP allow-list; the Go `map[string]bool` is modelled by the
list of keys that are present. -/
structure IPWhiteList where
  Whitelist : List String
  deriving DecidableEq, Repr

/-- Translation of `IPWhiteList.Allowed`: the wildcard key `"ALL"` admits any
ip; otherwise the ip itself must be a key of the map. -/
def IPWhiteList.Allowed (w : IPWhiteList) (ip : String) : Bool :=
  if "ALL" ∈ w.Whitelist then true
  else if ip ∉ w.Whitelist then false
  else true

/-- Translation of `PopulateIPWhiteList`: when the first element is `"ALL"`
only the wildcard is stored; otherwise every non-wildcard element is stored. -/
def PopulateIPWhiteList (ipList : List String) : IPWhiteList :=
  match ipList with
  | first :: _ =>
    if first = "ALL" then { Whitelist := ["ALL"] }
    else { Whitelist := ipList.filter (fun ip => ip ≠ "ALL") }
  | [] => { Whitelist := [] }

/-! ## Metrics (server/observability, `MetricsInput`, and `GetStatusCode`
from server/routes.go) -/

/-- Translation of `GetStatusCode` in server/routes.go: the Go expression
`string(rune(statusCode))` produces the one-character string whose code point
is the status code, not its decimal rendering. -/
def GetStatusCode (statusCode : Nat) : String :=
  String.mk [Char.ofNat statusCode]

/-- Labels of one metric sample, mirroring `observability.MetricsInput`. -/
structure MetricsInput where
  Code : String
  Method : String
  Route : String
  deriving DecidableEq, Repr

/-- Translation of `MetricsInput.ToList`: the reflection loop enumerates the
struct fields in declaration order `Code`, `Method`, `Route` and renders each
(already a string) with `fmt.Sprint`. -/
def MetricsInput.ToList (m : MetricsInput) : List String :=
  [m.Code, m.Method, m.Route]

/-! ## JWT authenticator (server/auth, `JwtAuth.Authenticate`) -/

/-- The two categorical errors of server/auth. -/
inductive AuthError where
  | tokenMissing
  | invalidToken
  deriving DecidableEq, Repr

/-- Outcome of `jwt.ParseWithClaims`, an external-library call, supplied as an
oracle: either the parse/signature verification fails, or it yields a token
with a validity flag and the `exp` claim (seconds since epoch). -/
inductive ParseOutcome where
  | err
  | ok (valid : Bool) (expiresAt : Int)
  deriving DecidableEq, Repr

/-- Configuration fields of `auth.JwtAuth` (the secret only feeds the parse
oracle and is not carried). -/
structure JwtAuth where
  Enabled : Bool
  Anonymous : Bool
  Routes : List String
  deriving DecidableEq, Repr

/-- Translation of `JwtAuth.pathInRoutes`. -/
def JwtAuth.pathInRoutes (j : JwtAuth) (path : String) : Bool :=
  j.Routes.any (fun route => route = path)

/-- Translation of `JwtAuth.Authenticate`. The Go code first computes
`"/" + strings.Split(r.URL.Path, "/")[2]` — an out-of-range index (hence a
panic) whenever the split has fewer than three parts — before any enabled or
protected-route check. Outer `none` models that panic; `some none` models a
nil (success) return; `some (some e)` models returning the error `e`. The
claims-marshalling error branch (which cannot fail for these claims) and the
`X-Claims` header write are not observed by any claim and are folded into the
success result. -/
def JwtAuth.Authenticate (j : JwtAuth) (parse : ParseOutcome) (now : Int)
    (token : String) (urlPath : String) : Option (Option AuthError) :=
  match (goSplit urlPath '/')[2]? with
  | none => none
  | some seg =>
    let path := "/" ++ seg
    if j.pathInRoutes path && j.Enabled then
      if token = "" then
        if j.Anonymous then some none
        else some (some AuthError.tokenMissing)
      else
        match parse with
        | ParseOutcome.err =>
          if j.Anonymous then some none
          else some (some AuthError.invalidToken)
        | ParseOutcome.ok valid expiresAt =>
          if !valid then some (some AuthError.invalidToken)
          else if expiresAt < now then
            if j.Anonymous then some none
            else some (some AuthError.invalidToken)
          else some none
    else some none

/-! ## Response cache (server/feature `CacheHandler` over patrickmn/go-cache)

The store of the external go-cache library is modelled as an association map
from keys to stored values. The claims only exercise an immediately repeated
request, so TTL bookkeeping (expiry stamps and the background janitor) is not
modelled; `Get` is a plain lookup and `Set` a plain insert-or-replace, which
is the library's behaviour when no expiry has elapsed. -/

/-- A value in the cache store. The Go code stores `interface{}`; the handler
distinguishes byte payloads from anything else (the type-mismatch branch). -/
inductive CacheVal where
  | bytes (b : Bytes)
  | other
  deriving DecidableEq, Repr

/-- The cache store underlying one service's `CacheHandler`. -/
abbrev CacheStore := List (String × CacheVal)

/-- Translation of `CacheHandler.Get` (lookup in the go-cache store). -/
def CacheHandler.Get (store : CacheStore) (key : String) : Option CacheVal :=
  assocGet store key

/-- Translation of `CacheHandler.Set` (insert-or-replace in the store). -/
def CacheHandler.Set (store : CacheStore) (key : String) (value : CacheVal) :
    CacheStore :=
  assocSet store key value

/-- Static configuration of a service's `CacheHandler`; the mutable store is
threaded separately through the handler. -/
structure CacheHandler where
  Enabled : Bool
  deriving DecidableEq, Repr

/-- Translation of `CacheHandler.IsEnabled`. -/
def CacheHandler.IsEnabled (c : CacheHandler) : Bool := c.Enabled

/-! ## Circuit breaker (server/feature `CircuitBreaker` over sony/gobreaker) -/

/-- The three states of the gobreaker state machine. -/
inductive CBState where
  | Closed
  | Open
  | HalfOpen
  deriving DecidableEq, Repr

/-- Per-service circuit breaker: the enabled flag from config plus the
observable state of the wrapped gobreaker instance. -/
structure CircuitBreaker where
  Enabled : Bool
  State : CBState
  deriving DecidableEq, Repr

/-- Translation of `CircuitBreaker.IsOpen`. -/
def CircuitBreaker.IsOpen (cb : CircuitBreaker) : Bool :=
  cb.State = CBState.Open

/-- Translation of `CircuitBreaker.IsEnabled`. -/
def CircuitBreaker.IsEnabled (cb : CircuitBreaker) : Bool := cb.Enabled

/-! ## Rate limiters (server/feature/limiter.go) -/

/-- One visitor record: the token bucket is opaque for these claims and is
carried as an identity tag, plus the `LastSeen` timestamp (seconds). -/
structure Visitor where
  bucket : Nat
  LastSeen : Nat
  deriving DecidableEq, Repr

/-- The visitor map of a `BaseRateLimiter`. -/
abbrev VisitorMap := List (String × Visitor)

/-- One pass of the body of `BaseRateLimiter.CleanupVisitors` executed at time
`now`: delete every visitor with `time.Since(v.LastSeen) > cleanup` seconds. -/
def CleanupVisitors (now cleanup : Nat) (m : VisitorMap) : VisitorMap :=
  m.filter (fun p => !decide (now - p.2.LastSeen > cleanup))

/-- Translation of `BaseRateLimiter.AddIP`: store a fresh visitor (new token
bucket, `LastSeen := now`) under the ip and return it. -/
def AddIP (m : VisitorMap) (ip : String) (now fresh : Nat) :
    VisitorMap × Visitor :=
  let v : Visitor := { bucket := fresh, LastSeen := now }
  (assocSet m ip v, v)

/-- Translation of `BaseRateLimiter.GetVisitor`: an existing visitor is
returned as-is (its `LastSeen` is not refreshed); a missing ip goes through
`AddIP`. -/
def GetVisitor (m : VisitorMap) (ip : String) (now fresh : Nat) :
    VisitorMap × Visitor :=
  match assocGet m ip with
  | some v => (m, v)
  | none => AddIP m ip now fresh

/-- Translation of `Service.RateLimitIP` (part_003): the remote address must
split as host:port, else the request is denied; otherwise the decision is the
token bucket's `Allow()` call, supplied as the oracle `allow`. -/
def RateLimitIP (allow : Bool) (addr : String) : Bool :=
  match splitHostPort addr with
  | none => false
  | some _ => allow

/-- Translation of `middleware.RateLimiterMiddleware`'s admission decision:
when the global limiter is enabled the raw `r.RemoteAddr` (no parsing) keys
`GetVisitor`, and admission is the bucket's `Allow()` oracle; when disabled
every request passes. Returns (admitted, updated visitor map). -/
def RateLimiterMiddleware (enabled : Bool) (m : VisitorMap) (remoteAddr : String)
    (now fresh : Nat) (allow : Bool) : Bool × VisitorMap :=
  if enabled then
    let gv := GetVisitor m remoteAddr now fresh
    (allow, gv.1)
  else (true, m)

/-! ## Service entries and the registry (part_003 / registry.go) -/

/-- Per-service limiter as seen by the pipeline: only its enabled flag matters
(the bucket decision itself is the `Allow()` oracle). -/
structure ServiceRateLimiter where
  Enabled : Bool
  deriving DecidableEq, Repr

/-- A registered service entry (`Service` in part_003), holding the upstream
address and the per-service policy objects. -/
structure Service where
  Addr : String
  FallbackUri : String
  WhiteList : IPWhiteList
  Auth : JwtAuth
  Cache : CacheHandler
  CircuitBreaker : CircuitBreaker
  RateLimiter : ServiceRateLimiter
  deriving DecidableEq, Repr

/-- Translation of `Service.IsRateLimiterEnabled`. -/
def Service.IsRateLimiterEnabled (s : Service) : Bool :=
  s.RateLimiter.Enabled

/-- Translation of `Service.IsWhitelisted`: `none` models the `(false, err)`
return when `net.SplitHostPort` fails; otherwise the allow-list decides on the
host part. -/
def Service.IsWhitelisted (s : Service) (addr : String) : Option Bool :=
  match splitHostPort addr with
  | none => none
  | some hp => some (s.WhiteList.Allowed hp.1)

/-- The registry's service map (`ServiceRegistry.Services`), modelled
extensionally as Go map semantics. -/
abbrev Registry := String → Option Service

/-- Translation of `ServiceRegistry.Register`: logs a warning when the name
already exists, then stores the entry unconditionally. -/
def Register (sr : Registry) (name : String) (s : Service) : Registry :=
  fun k => if k = name then some s else sr k

/-- Translation of `ServiceRegistry.Update`: replaces the entry only when the
name is already present, otherwise leaves the map untouched. -/
def Update (sr : Registry) (name : String) (updated : Service) : Registry :=
  if (sr name).isSome then fun k => if k = name then some updated else sr k
  else sr

/-- Translation of `ServiceRegistry.Deregister`. -/
def Deregister (sr : Registry) (name : String) : Registry :=
  fun k => if k = name then none else sr k

/-- Translation of `ServiceRegistry.GetService`. -/
def GetService (sr : Registry) (name : String) : Option Service :=
  sr name

/-- Translation of `ServiceRegistry.GetFallbackUri`. -/
def GetFallbackUri (sr : Registry) (name : String) : String :=
  match GetService sr name with
  | none => ""
  | some s => s.FallbackUri

/-- Translation of `ServiceRegistry.SetCache`: fails (returns `false`) only
when the service is not registered; otherwise writes through to the service's
cache store. -/
def SetCache (sr : Registry) (store : CacheStore) (name key : String)
    (value : CacheVal) : CacheStore × Bool :=
  match GetService sr name with
  | none => (store, false)
  | some _ => (CacheHandler.Set store key value, true)

/-- A mutation of the registry, for stating the last-write-wins property. -/
inductive RegOp where
  | register (name : String) (e : Service)
  | update (name : String) (e : Service)
  | deregister (name : String)

/-- Apply one registry operation. -/
def applyOp (sr : Registry) : RegOp → Registry
  | RegOp.register n e => Register sr n e
  | RegOp.update n e => Update sr n e
  | RegOp.deregister n => Deregister sr n

/-- Apply a sequence of registry operations left to right. -/
def runOps (sr : Registry) (ops : List RegOp) : Registry :=
  ops.foldl applyOp sr

/-- Modelled from the spec: the entry stored for `name` by the last successful
`register`/`update` in the trace (a `register` always succeeds; an `update`
succeeds only when the name is currently present; a `deregister` clears it),
starting from the value `cur` currently visible for `name`. -/
def lastStored (name : String) : List RegOp → Option Service → Option Service
  | [], cur => cur
  | op :: rest, cur =>
    lastStored name rest
      (match op with
       | RegOp.register n e => if n = name then some e else cur
       | RegOp.update n e => if n = name && cur.isSome then some e else cur
       | RegOp.deregister n => if n = name then none else cur)

/-! ## The request pipeline (server/routes.go) -/

/-- The parts of an inbound `http.Request` the pipeline reads. -/
structure Request where
  method : String
  path : String
  rawQuery : String
  remoteAddr : String
  authHeader : String
  deriving DecidableEq, Repr

/-- Rendering of `r.URL.String()` for the request shapes the gateway sees:
path plus, when non-empty, `?` and the raw query. -/
def urlString (r : Request) : String :=
  if r.rawQuery = "" then r.path else r.path ++ "?" ++ r.rawQuery

/-- An upstream HTTP response: status code and body bytes. -/
structure UpstreamResp where
  Status : Nat
  Body : Bytes
  deriving DecidableEq, Repr

/-- Oracles for the pipeline's external effects: `upstream uri` is the result
of `client.Do` on a request to `uri` (`none` models a transport error),
`svcAllow` the per-service token bucket's `Allow()`, `parse`/`now` feed the
JWT authenticator, and `trippedAfterFailure` is whether `cb.IsOpen()` observes
an Open breaker right after a failed `Execute` (the breaker may trip on the
failure it just counted). -/
structure Env where
  upstream : String → Option UpstreamResp
  svcAllow : Bool
  parse : ParseOutcome
  now : Int
  trippedAfterFailure : Bool

/-- Translation of `RequestHandler.resolvePath`: parts[1] is the service name
and parts[2:] the upstream route; fewer than two parts returns the whole path
with an empty route. -/
def resolvePath (path : String) : String × List String :=
  match goSplit path '/' with
  | _ :: p1 :: rest => (p1, rest)
  | _ => (path, [])

/-- Translation of `RequestHandler.createForwardURI`. -/
def createForwardURI (address : String) (route : List String) (query : String) :
    String :=
  let address :=
    if !goHasPrefix address "http://" && !goHasPrefix address "https://" then
      "http://" ++ address
    else address
  let forwardUri := address ++ "/" ++ joinSep "/" route
  if query ≠ "" then forwardUri ++ "?" ++ query else forwardUri

/-- Translation of `RequestHandler.generateCacheKey`. -/
def generateCacheKey (service : String) (r : Request) : String :=
  "cache-" ++ service ++ "-" ++ urlString r

/-- What one forward attempt did: whether it returned an error to the caller,
the status and body written to the client so far, the upstream URIs it issued
requests to, the resulting cache store, and the metric samples it recorded. -/
structure ForwardResult where
  err : Bool
  wroteStatus : Option Nat
  wroteBody : Option Bytes
  wroteText : Option String
  calls : List String
  cache : CacheStore
  metrics : List MetricsInput
  deriving DecidableEq, Repr

/-- Translation of `RequestHandler.forwardRequest` (the non-breaker path).
The response body is a stream: `io.Copy(w, resp.Body)` writes all of it to
the client and drains it, so the subsequent `io.ReadAll(resp.Body)` that
feeds `SetCache` yields the empty byte slice. A `client.Do` failure (or a
request-construction failure, folded into the same oracle) records a 500
metric sample and returns the error. -/
def forwardRequest (sr : Registry) (store : CacheStore) (r : Request)
    (forwardUri service : String) (env : Env) : ForwardResult :=
  match env.upstream forwardUri with
  | none =>
    { err := true, wroteStatus := none, wroteBody := none, wroteText := none,
      calls := [forwardUri], cache := store,
      metrics := [⟨GetStatusCode 500, r.method, urlString r⟩] }
  | some resp =>
    let copied := resp.Body
    let valAfterDrain : Bytes := []
    let key := generateCacheKey service r
    match SetCache sr store service key (CacheVal.bytes valAfterDrain) with
    | (store2, true) =>
      { err := false, wroteStatus := some resp.Status, wroteBody := some copied,
        wroteText := none, calls := [forwardUri], cache := store2,
        metrics := [⟨GetStatusCode resp.Status, r.method, urlString r⟩] }
    | (store2, false) =>
      { err := true, wroteStatus := some resp.Status, wroteBody := some copied,
        wroteText := none, calls := [forwardUri], cache := store2, metrics := [] }

/-- Translation of `RequestHandler.handleFallbackRequest`: a missing fallback
URI answers 404 (with a metric sample) and returns nil; otherwise the request
is re-forwarded through the non-breaker path against the fallback base. -/
def handleFallbackRequest (sr : Registry) (store : CacheStore) (r : Request)
    (service : String) (env : Env) : ForwardResult :=
  let fallbackURI := GetFallbackUri sr service
  if fallbackURI = "" then
    { err := false, wroteStatus := some 404, wroteBody := none,
      wroteText := some "fallback uri not found", calls := [], cache := store,
      metrics := [⟨GetStatusCode 404, r.method, urlString r⟩] }
  else
    let route := (resolvePath r.path).2
    forwardRequest sr store r (createForwardURI fallbackURI route r.rawQuery)
      service env

/-- Translation of `RequestHandler.forwardRequestCB`. gobreaker's `Execute`
refuses the call without invoking the request function while the breaker is
Open, returning `ErrOpenState`; that is the first branch. Otherwise the
request function runs: it issues the upstream request, copies headers, writes
the upstream status, and reads the whole body (`io.ReadAll` before anything
is copied, so the real bytes reach both the client write and `SetCache`). On
a non-open-state failure the handler still falls back when `cb.IsOpen()`
observes that the breaker has just tripped. -/
def forwardRequestCB (sr : Registry) (store : CacheStore) (r : Request)
    (forwardURI : String) (cb : CircuitBreaker) (service : String) (env : Env) :
    ForwardResult :=
  if cb.State = CBState.Open then
    handleFallbackRequest sr store r service env
  else
    match env.upstream forwardURI with
    | none =>
      if env.trippedAfterFailure then
        handleFallbackRequest sr store r service env
      else
        { err := true, wroteStatus := none, wroteBody := none, wroteText := none,
          calls := [forwardURI], cache := store, metrics := [] }
    | some resp =>
      let body := resp.Body
      let key := generateCacheKey service r
      match SetCache sr store service key (CacheVal.bytes body) with
      | (store2, true) =>
        { err := false, wroteStatus := some resp.Status, wroteBody := some body,
          wroteText := none, calls := [forwardURI], cache := store2,
          metrics := [⟨GetStatusCode 200, r.method, urlString r⟩] }
      | (store2, false) =>
        { err := true, wroteStatus := some resp.Status, wroteBody := some body,
          wroteText := none, calls := [forwardURI], cache := store2, metrics := [] }

/-- The terminal outcome of handling one request: response status and body
(text bodies come from `http.Error`, byte bodies from cache or upstream), the
upstream URIs called, the cache store afterwards, and the metrics recorded. -/
structure HResult where
  status : Nat
  textBody : Option String
  byteBody : Option Bytes
  calls : List String
  cache : CacheStore
  metrics : List MetricsInput
  deriving DecidableEq, Repr

/-- Translation of `RequestHandler.HandleRequest`, the policy pipeline of
server/routes.go in source order: resolve path, registry lookup (400),
per-service rate limit (429), allow-list (401), auth (401 / panic for short
paths), empty-address check (404), cache probe (200 hit / 500 type mismatch),
then the forward with or without circuit breaker, mapping a forward error to
500 `service is down`. `none` models the auth panic on paths with fewer than
three `/`-separated parts. -/
def HandleRequest (sr : Registry) (store : CacheStore) (env : Env)
    (r : Request) : Option HResult :=
  let serviceName := (resolvePath r.path).1
  let route := (resolvePath r.path).2
  match GetService sr serviceName with
  | none =>
    some { status := 400, textBody := some "Bad Request", byteBody := none,
           calls := [], cache := store, metrics := [] }
  | some service =>
    if service.IsRateLimiterEnabled && !RateLimitIP env.svcAllow r.remoteAddr then
      some { status := 429, textBody := some "Too Many Requests", byteBody := none,
             calls := [], cache := store,
             metrics := [⟨GetStatusCode 429, r.method, urlString r⟩] }
    else if service.IsWhitelisted r.remoteAddr ≠ some true then
      some { status := 401, textBody := some "unauthorized", byteBody := none,
             calls := [], cache := store,
             metrics := [⟨GetStatusCode 401, r.method, urlString r⟩] }
    else
      match service.Auth.Authenticate env.parse env.now r.authHeader r.path with
      | none => none
      | some (some AuthError.tokenMissing) =>
        some { status := 401, textBody := some "token missing", byteBody := none,
               calls := [], cache := store,
               metrics := [⟨GetStatusCode 401, r.method, urlString r⟩] }
      | some (some AuthError.invalidToken) =>
        some { status := 401, textBody := some "invalid token", byteBody := none,
               calls := [], cache := store,
               metrics := [⟨GetStatusCode 401, r.method, urlString r⟩] }
      | some none =>
        if service.Addr = "" then
          some { status := 404, textBody := some "service not found",
                 byteBody := none, calls := [], cache := store,
                 metrics := [⟨GetStatusCode 404, r.method, urlString r⟩] }
        else
          let key := generateCacheKey serviceName r
          match CacheHandler.Get store key, service.Cache.IsEnabled with
          | some (CacheVal.bytes value), true =>
            some { status := 200, textBody := none, byteBody := some value,
                   calls := [], cache := store,
                   metrics := [⟨GetStatusCode 200, r.method, urlString r⟩] }
          | some CacheVal.other, true =>
            some { status := 500, textBody := some "return data type mismatch",
                   byteBody := none, calls := [], cache := store,
                   metrics := [⟨GetStatusCode 500, r.method, urlString r⟩] }
          | _, _ =>
            let forwardUri := createForwardURI service.Addr route r.rawQuery
            let fr :=
              if service.CircuitBreaker.IsEnabled then
                forwardRequestCB sr store r forwardUri service.CircuitBreaker
                  serviceName env
              else
                forwardRequest sr store r forwardUri serviceName env
            if fr.err then
              some { status := 500, textBody := some "service is down",
                     byteBody := fr.wroteBody, calls := fr.calls,
                     cache := fr.cache,
                     metrics := fr.metrics ++
                       [⟨GetStatusCode 500, r.method, urlString r⟩] }
            else
              some { status := fr.wroteStatus.getD 200, textBody := fr.wroteText,
                     byteBody := fr.wroteBody, calls := fr.calls,
                     cache := fr.cache, metrics := fr.metrics }

/-! ## Concrete instances used by the claim theorems and witnesses -/

/-- Allow-list containing only the wildcard. -/
def wlAll : IPWhiteList := { Whitelist := ["ALL"] }

/-- Authenticator disabled and unprotected. -/
def authOff : JwtAuth := { Enabled := false, Anonymous := false, Routes := [] }

/-- A service with cache enabled, breaker disabled, limiter disabled, open
allow-list. -/
def svcCache : Service :=
  { Addr := "upstream:9000", FallbackUri := "", WhiteList := wlAll,
    Auth := authOff, Cache := { Enabled := true },
    CircuitBreaker := { Enabled := false, State := CBState.Closed },
    RateLimiter := { Enabled := false } }

/-- Registry holding `svcCache` under the name `svc1`. -/
def regCache : Registry := fun k => if k = "svc1" then some svcCache else none

/-- Environment whose upstream answers `http://upstream:9000/x` with status
200 and body byte `66`. -/
def envCache : Env :=
  { upstream := fun uri =>
      if uri = "http://upstream:9000/x" then some { Status := 200, Body := [66] }
      else none,
    svcAllow := true, parse := ParseOutcome.err, now := 0,
    trippedAfterFailure := false }

/-- A GET for `/svc1/x` from a parseable remote address with no token. -/
def reqX : Request :=
  { method := "GET", path := "/svc1/x", rawQuery := "", remoteAddr := "1.2.3.4:5",
    authHeader := "" }

/-- The same service with a restrictive allow-list. -/
def svcWl : Service := { svcCache with WhiteList := { Whitelist := ["1.1.1.1"] } }

/-- Registry holding `svcWl` under the name `svc1`. -/
def regWl : Registry := fun k => if k = "svc1" then some svcWl else none

/-- The `/svc1/x` request from an address outside `svcWl`'s allow-list. -/
def reqWl : Request := { reqX with remoteAddr := "9.9.9.9:1" }

/-- The same service with its cache disabled. -/
def svcNoCache : Service := { svcCache with Cache := { Enabled := false } }

/-- Registry holding `svcNoCache` under the name `svc1`. -/
def regNoCache : Registry := fun k => if k = "svc1" then some svcNoCache else none

/-- An enabled, anonymous authenticator protecting `/private`. -/
def authProtected : JwtAuth :=
  { Enabled := true, Anonymous := true, Routes := ["/private"] }

/-- A second service entry, used to exercise registry updates. -/
def entryB : Service := { svcCache with Addr := "upstream2:9000" }

/-- The single-segment request `/svc1` (path splits into only two parts). -/
def reqShort : Request := { reqX with path := "/svc1" }

/-- The response components of an `HResult` (everything except the cache
store), used to state that a disabled cache never influences the response. -/
def respView (h : HResult) :
    Nat × Option String × Option Bytes × List String × List MetricsInput :=
  (h.status, h.textBody, h.byteBody, h.calls, h.metrics)

/-- The client-visible components of a `ForwardResult` (everything except the
cache store). -/
def fwdView (f : ForwardResult) :
    Bool × Option Nat × Option Bytes × Option String × List String ×
      List MetricsInput :=
  (f.err, f.wroteStatus, f.wroteBody, f.wroteText, f.calls, f.metrics)

/-! ## General lemmas about the embedding -/

theorem forwardRequest_calls (sr : Registry) (store : CacheStore) (r : Request)
    (u service : String) (env : Env) :
    (forwardRequest sr store r u service env).calls = [u] := by
  unfold forwardRequest
  cases env.upstream u with
  | none => rfl
  | some resp =>
    rcases hsc : SetCache sr store service (generateCacheKey service r)
      (CacheVal.bytes []) with ⟨s2, b⟩
    cases b <;> simp [hsc]

theorem getService_applyOp (sr : Registry) (name : String) (op : RegOp) :
    GetService (applyOp sr op) name =
      match op with
      | RegOp.register n e => if n = name then some e else GetService sr name
      | RegOp.update n e =>
        if n = name && (GetService sr name).isSome then some e
        else GetService sr name
      | RegOp.deregister n => if n = name then none else GetService sr name := by
  cases op with
  | register n e =>
    by_cases h : n = name
    · subst h; simp [applyOp, Register, GetService]
    · simp [applyOp, Register, GetService, h, Ne.symm h]
  | update n e =>
    by_cases h : n = name
    · subst h
      by_cases h2 : (sr n).isSome <;>
        simp [applyOp, Update, GetService, h2]
    · by_cases h2 : (sr n).isSome <;>
        simp [applyOp, Update, GetService, h, Ne.symm h, h2]
  | deregister n =>
    by_cases h : n = name
    · subst h; simp [applyOp, Deregister, GetService]
    · simp [applyOp, Deregister, GetService, h, Ne.symm h]

theorem getService_runOps (ops : List RegOp) (sr : Registry) (name : String) :
    GetService (runOps sr ops) name = lastStored name ops (GetService sr name) := by
  induction ops generalizing sr with
  | nil => rfl
  | cons op rest ih =>
    show GetService ((op :: rest).foldl applyOp sr) name = _
    rw [List.foldl_cons]
    have hstep := ih (applyOp sr op)
    unfold runOps at hstep
    rw [hstep]
    unfold lastStored
    rw [getService_applyOp]
    cases rest <;> rfl

theorem forwardRequest_view (sr : Registry) (s1 s2 : CacheStore) (r : Request)
    (u service : String) (env : Env) :
    fwdView (forwardRequest sr s1 r u service env) =
      fwdView (forwardRequest sr s2 r u service env) := by
  unfold forwardRequest
  cases env.upstream u with
  | none => rfl
  | some resp =>
    unfold SetCache
    cases GetService sr service <;> rfl

theorem handleFallbackRequest_view (sr : Registry) (s1 s2 : CacheStore)
    (r : Request) (service : String) (env : Env) :
    fwdView (handleFallbackRequest sr s1 r service env) =
      fwdView (handleFallbackRequest sr s2 r service env) := by
  unfold handleFallbackRequest
  by_cases h : GetFallbackUri sr service = ""
  · simp [h, fwdView]
  · simp only [h, if_neg, ite_false]
    exact forwardRequest_view ..

theorem forwardRequestCB_view (sr : Registry) (s1 s2 : CacheStore) (r : Request)
    (u : String) (cb : CircuitBreaker) (service : String) (env : Env) :
    fwdView (forwardRequestCB sr s1 r u cb service env) =
      fwdView (forwardRequestCB sr s2 r u cb service env) := by
  unfold forwardRequestCB
  by_cases hst : cb.State = CBState.Open
  · simp only [hst, if_pos]
    exact handleFallbackRequest_view ..
  · simp only [hst, ite_false, if_neg]
    cases env.upstream u with
    | none =>
      by_cases ht : env.trippedAfterFailure = true
      · simp only [ht, if_pos]
        exact handleFallbackRequest_view ..
      · simp only [Bool.not_eq_true] at ht
        simp [ht, fwdView]
    | some resp =>
      unfold SetCache
      cases GetService sr service <;> rfl

/-! ## Claim theorems -/

theorem respView_forward_tail (r : Request) (f1 f2 : ForwardResult)
    (h : fwdView f1 = fwdView f2) :
    Option.map respView
      (if f1.err = true then
        some { status := 500, textBody := some "service is down",
               byteBody := f1.wroteBody, calls := f1.calls, cache := f1.cache,
               metrics := f1.metrics ++
                 [⟨GetStatusCode 500, r.method, urlString r⟩] }
      else
        some { status := f1.wroteStatus.getD 200, textBody := f1.wroteText,
               byteBody := f1.wroteBody, calls := f1.calls, cache := f1.cache,
               metrics := f1.metrics }) =
    Option.map respView
      (if f2.err = true then
        some { status := 500, textBody := some "service is down",
               byteBody := f2.wroteBody, calls := f2.calls, cache := f2.cache,
               metrics := f2.metrics ++
                 [⟨GetStatusCode 500, r.method, urlString r⟩] }
      else
        some { status := f2.wroteStatus.getD 200, textBody := f2.wroteText,
               byteBody := f2.wroteBody, calls := f2.calls, cache := f2.cache,
               metrics := f2.metrics }) := by
  obtain ⟨he, hs, hb, htx, hc, hm⟩ :
      f1.err = f2.err ∧ f1.wroteStatus = f2.wroteStatus ∧
      f1.wroteBody = f2.wroteBody ∧ f1.wroteText = f2.wroteText ∧
      f1.calls = f2.calls ∧ f1.metrics = f2.metrics := by
    simpa [fwdView, Prod.mk.injEq] using h
  rw [he]
  by_cases h2 : f2.err = true <;> simp [h2, respView, hs, hb, htx, hc, hm]

/-- C1: the cache round-trip breaks on the non-breaker path. On the first
forward, `forwardRequest` streams the upstream body (here byte `66`) to the
client with `io.Copy` and only afterwards calls `io.ReadAll` on the drained
stream, so the cache is populated with the empty byte slice. The immediately
repeated identical request is a cache hit: it answers 200 without calling the
upstream, but its body is empty — not byte-identical to the first response. -/
theorem cache_roundtrip_caches_drained_body :
    HandleRequest regCache [] envCache reqX =
      some { status := 200, textBody := none, byteBody := some [66],
             calls := ["http://upstream:9000/x"],
             cache := [("cache-svc1-/svc1/x", CacheVal.bytes [])],
             metrics := [⟨GetStatusCode 200, "GET", "/svc1/x"⟩] } ∧
    HandleRequest regCache [("cache-svc1-/svc1/x", CacheVal.bytes [])] envCache
        reqX =
      some { status := 200, textBody := none, byteBody := some [],
             calls := [],
             cache := [("cache-svc1-/svc1/x", CacheVal.bytes [])],
             metrics := [⟨GetStatusCode 200, "GET", "/svc1/x"⟩] } ∧
    some ([] : Bytes) ≠ some ([66] : Bytes) := by decide

/-- C8: every metric sample the handler records does carry the full inbound
request URL as its Route label, but the Code label is `string(rune(status))`
— the one-character string whose code point is the status — not the decimal
rendering: the 401 recorded for a whitelist rejection is labelled `"Ƒ"`
(U+0191), not `"401"`. -/
theorem metrics_code_label_is_rune_not_decimal :
    HandleRequest regWl [] envCache reqWl =
      some { status := 401, textBody := some "unauthorized", byteBody := none,
             calls := [], cache := [],
             metrics := [⟨GetStatusCode 401, "GET", "/svc1/x"⟩] } ∧
    GetStatusCode 401 = String.mk [Char.ofNat 401] ∧
    GetStatusCode 401 ≠ "401" ∧
    GetStatusCode 200 ≠ "200" ∧
    MetricsInput.ToList ⟨GetStatusCode 401, "GET", urlString reqWl⟩ =
      [GetStatusCode 401, "GET", "/svc1/x"] := by decide

/-- C5: `Register` stores the entry even over an existing name, `Update`
replaces only a present name and is a no-op on an absent one, `Deregister`
removes the name, and over any operation sequence `GetService` returns
exactly the entry stored by the last successful register/update (tracked by
the spec-side `lastStored`). -/
theorem registry_register_update_deregister_get (sr : Registry) (name : String)
    (e : Service) (ops : List RegOp) :
    GetService (Register sr name e) name = some e ∧
    ((sr name).isSome → GetService (Update sr name e) name = some e) ∧
    (sr name = none → Update sr name e = sr) ∧
    GetService (Deregister sr name) name = none ∧
    GetService (runOps sr ops) name = lastStored name ops (GetService sr name) := by
  refine ⟨?_, ?_, ?_, ?_, ?_⟩
  · simp [GetService, Register]
  · intro h
    simp [GetService, Update, h]
  · intro h
    simp [Update, h]
  · simp [GetService, Deregister]
  · exact getService_runOps ops sr name

/-- Witness for C5 at concrete inputs: updating the present name `svc1`
replaces its entry, and a register/deregister trace for `svc2` ends with
`GetService` returning none. -/
theorem registry_register_update_deregister_get_witness :
    GetService (Update regCache "svc1" entryB) "svc1" = some entryB ∧
    GetService
        (runOps regCache [RegOp.register "svc2" entryB, RegOp.deregister "svc2"])
        "svc2" = none := by
  constructor
  · exact (registry_register_update_deregister_get regCache "svc1" entryB []).2.1
      (by decide)
  · exact ((registry_register_update_deregister_get regCache "svc2" entryB
      [RegOp.register "svc2" entryB, RegOp.deregister "svc2"]).2.2.2.2).trans
      (by decide)

/-- C6 counterexample: with `cleanup = 60`, a visitor created at time 0 makes
a request at time 100 (`GetVisitor` returns it without refreshing `LastSeen`)
and the sweep at time 110 still evicts it, although its last request was only
10 ≤ 60 seconds before the sweep — the claim's retention of non-idle visitors
fails because `LastSeen` is set only at creation. -/
theorem cleanup_evicts_recently_active_visitor :
    GetVisitor [("1.2.3.4", ⟨0, 0⟩)] "1.2.3.4" 100 7 =
      ([("1.2.3.4", ⟨0, 0⟩)], ⟨0, 0⟩) ∧
    CleanupVisitors 110 60 [("1.2.3.4", ⟨0, 0⟩)] = [] ∧
    110 - 100 ≤ 60 := by decide

/-- C6 amended: the sweep evicts exactly the visitors whose `LastSeen` lies
more than `cleanup` seconds in the past; but `LastSeen` is set only when the
visitor is created (`AddIP`) and `GetVisitor` returns an existing visitor
without touching the map, so recent requests do not protect a visitor created
more than `cleanup` seconds ago. -/
theorem cleanup_evicts_exactly_stale_lastseen (now cleanup : Nat)
    (m : VisitorMap) (ip : String) (v : Visitor) (fresh : Nat) :
    ((ip, v) ∈ CleanupVisitors now cleanup m ↔
      (ip, v) ∈ m ∧ now - v.LastSeen ≤ cleanup) ∧
    (assocGet m ip = some v → GetVisitor m ip now fresh = (m, v)) := by
  constructor
  · simp [CleanupVisitors, List.mem_filter, Nat.not_lt]
  · intro h
    unfold GetVisitor
    rw [h]

/-- Witness for C6 amended at concrete inputs. -/
theorem cleanup_evicts_exactly_stale_lastseen_witness :
    GetVisitor [("1.2.3.4", ⟨3, 50⟩)] "1.2.3.4" 100 7 =
      ([("1.2.3.4", ⟨3, 50⟩)], ⟨3, 50⟩) :=
  (cleanup_evicts_exactly_stale_lastseen 100 60 [("1.2.3.4", ⟨3, 50⟩)]
    "1.2.3.4" ⟨3, 50⟩ 7).2 (by decide)

/-- C7 counterexample: the per-service limiter (`Service.RateLimitIP`) denies
a bare IPv4 address — `net.SplitHostPort("127.0.0.1")` fails, so the request
is rejected even though the bucket would allow it — while the global limiter
middleware does no address parsing at all: it admits a request from an
arbitrary invalid address and keys the visitor map by the raw string. -/
theorem limiter_address_parsing_counterexample :
    RateLimitIP true "127.0.0.1" = false ∧
    splitHostPort "127.0.0.1" = none ∧
    (RateLimiterMiddleware true [] "not an address" 5 7 true).1 = true ∧
    (RateLimiterMiddleware true [] "not an address" 5 7 true).2 =
      [("not an address", ⟨7, 5⟩)] := by decide

/-- C7 amended: the per-service limiter accepts only host:port remote
addresses — whenever `net.SplitHostPort` fails (including on a bare IPv4
address) the request is denied, and otherwise the token bucket decides —
while the global limiter middleware performs no address parsing: it admits
according to the bucket alone and keys the visitor map by the raw remote
address. -/
theorem limiter_address_parsing (allow : Bool) (addr : String) (m : VisitorMap)
    (now fresh : Nat) :
    (splitHostPort addr = none → RateLimitIP allow addr = false) ∧
    (∀ hp, splitHostPort addr = some hp → RateLimitIP allow addr = allow) ∧
    (RateLimiterMiddleware true m addr now fresh allow).1 = allow ∧
    (RateLimiterMiddleware true m addr now fresh allow).2 =
      (GetVisitor m addr now fresh).1 := by
  refine ⟨?_, ?_, ?_, ?_⟩
  · intro h
    unfold RateLimitIP
    rw [h]
  · intro hp h
    unfold RateLimitIP
    rw [h]
  · rfl
  · rfl

/-- Witness for C7 amended at concrete inputs. -/
theorem limiter_address_parsing_witness :
    RateLimitIP true "127.0.0.1" = false ∧ RateLimitIP false "1.2.3.4:80" = false := by
  constructor
  · exact (limiter_address_parsing true "127.0.0.1" [] 0 0).1 (by decide)
  · exact (limiter_address_parsing false "1.2.3.4:80" [] 0 0).2.1
      ("1.2.3.4", "80") (by decide)

/-- C3 counterexample: with auth enabled, the route protected and `anonymous`
true, a non-empty token whose parse/signature verification fails is treated
as success (`Authenticate` returns nil), not rejected with the invalid-token
error as the claim states. -/
theorem anonymous_parse_failure_passes :
    JwtAuth.Authenticate authProtected ParseOutcome.err 1000 "garbage"
        "/svc1/private" = some none ∧
    some (none : Option AuthError) ≠ some (some AuthError.invalidToken) := by
  decide

/-- C3 amended: when auth is enabled, the route is protected and `anonymous`
is true, a missing token, a token whose parsing or signature verification
fails, and an expired token are all treated as success — the anonymous
escape hatch covers the parse-error branch as well, not only missing and
expired tokens. -/
theorem anonymous_auth_outcomes (j : JwtAuth) (urlPath seg token : String)
    (parse : ParseOutcome) (now : Int)
    (hseg : (goSplit urlPath '/')[2]? = some seg)
    (hprot : j.pathInRoutes ("/" ++ seg) = true)
    (hen : j.Enabled = true) (han : j.Anonymous = true) :
    (token = "" → j.Authenticate parse now token urlPath = some none) ∧
    (parse = ParseOutcome.err → j.Authenticate parse now token urlPath = some none) ∧
    (∀ e, parse = ParseOutcome.ok true e → e < now →
      j.Authenticate parse now token urlPath = some none) := by
  refine ⟨?_, ?_, ?_⟩
  · intro h
    unfold JwtAuth.Authenticate
    rw [hseg]
    simp [hprot, hen, han, h]
  · intro h
    subst h
    unfold JwtAuth.Authenticate
    rw [hseg]
    by_cases ht : token = "" <;> simp [hprot, hen, han, ht]
  · intro e hp hlt
    subst hp
    unfold JwtAuth.Authenticate
    rw [hseg]
    by_cases ht : token = "" <;> simp [hprot, hen, han, ht, hlt]

/-- Witness for C3 amended at concrete inputs: the parse-failure case. -/
theorem anonymous_auth_outcomes_witness :
    JwtAuth.Authenticate authProtected ParseOutcome.err 1000 "garbage"
        "/svc1/private" = some none :=
  (anonymous_auth_outcomes authProtected "/svc1/private" "private" "garbage"
    ParseOutcome.err 1000 (by decide) (by decide) (by decide) (by decide)).2.1 rfl

/-- C10: a request for a registered service whose path splits into fewer than
three `/`-separated parts (such as the single-segment `/svc1`) that passes
the rate-limit and allow-list stages reaches `Authenticate`, which indexes
part 2 of the split out of range: the handler panics (modelled by `none`)
instead of producing a response. -/
theorem short_path_panics_in_auth (sr : Registry) (store : CacheStore)
    (env : Env) (r : Request) (svc : Service)
    (hsvc : GetService sr (resolvePath r.path).1 = some svc)
    (hrl : (svc.IsRateLimiterEnabled && !RateLimitIP env.svcAllow r.remoteAddr)
      = false)
    (hwl : svc.IsWhitelisted r.remoteAddr = some true)
    (hshort : (goSplit r.path '/').length < 3) :
    HandleRequest sr store env r = none := by
  have hauth : svc.Auth.Authenticate env.parse env.now r.authHeader r.path
      = none := by
    unfold JwtAuth.Authenticate
    rw [List.getElem?_eq_none (by omega)]
  simp [HandleRequest, hsvc, hrl, hwl, hauth]

/-- Witness for C10 at concrete inputs: the single-segment path `/svc1`. -/
theorem short_path_panics_in_auth_witness :
    HandleRequest regCache [] envCache reqShort = none :=
  short_path_panics_in_auth regCache [] envCache reqShort svcCache (by decide)
    (by decide) (by decide) (by decide)

/-- C2: a request to a registered service that passes the rate-limit stage
and whose source IP (host part of the remote address) is neither in the
allow-list nor covered by a stored `"ALL"` wildcard is answered with 401 and
no upstream request is issued (the calls list is empty and the cache is
untouched). -/
theorem whitelist_reject_401_no_upstream (sr : Registry) (store : CacheStore)
    (env : Env) (r : Request) (svc : Service) (ip port : String)
    (hsvc : GetService sr (resolvePath r.path).1 = some svc)
    (hrl : (svc.IsRateLimiterEnabled && !RateLimitIP env.svcAllow r.remoteAddr)
      = false)
    (hsplit : splitHostPort r.remoteAddr = some (ip, port))
    (hip : ip ∉ svc.WhiteList.Whitelist)
    (hall : "ALL" ∉ svc.WhiteList.Whitelist) :
    HandleRequest sr store env r =
      some { status := 401, textBody := some "unauthorized", byteBody := none,
             calls := [], cache := store,
             metrics := [⟨GetStatusCode 401, r.method, urlString r⟩] } := by
  have hwl : svc.IsWhitelisted r.remoteAddr = some false := by
    unfold Service.IsWhitelisted
    rw [hsplit]
    simp [IPWhiteList.Allowed, hip, hall]
  simp [HandleRequest, hsvc, hrl, hwl]

/-- Witness for C2 at concrete inputs: `9.9.9.9` against allow-list
`{1.1.1.1}`. -/
theorem whitelist_reject_401_no_upstream_witness :
    HandleRequest regWl [] envCache reqWl =
      some { status := 401, textBody := some "unauthorized", byteBody := none,
             calls := [], cache := [],
             metrics := [⟨GetStatusCode 401, "GET", urlString reqWl⟩] } :=
  whitelist_reject_401_no_upstream regWl [] envCache reqWl svcWl "9.9.9.9" "1"
    (by decide) (by decide) (by decide) (by decide) (by decide)

/-- C4: when the circuit breaker is Open, gobreaker's `Execute` refuses the
call without invoking the request function, so the primary upstream receives
no request; the handler takes the fallback path: with an empty fallback URI
it answers 404 (making no upstream call at all), and with a non-empty one it
re-forwards through the non-breaker `forwardRequest` against the fallback
base, so the only upstream call is the fallback URI. -/
theorem breaker_open_fallback_or_404 (sr : Registry) (store : CacheStore)
    (r : Request) (uri : String) (cb : CircuitBreaker) (service : String)
    (env : Env) (hopen : cb.State = CBState.Open) :
    (GetFallbackUri sr service = "" →
      forwardRequestCB sr store r uri cb service env =
        { err := false, wroteStatus := some 404, wroteBody := none,
          wroteText := some "fallback uri not found", calls := [],
          cache := store,
          metrics := [⟨GetStatusCode 404, r.method, urlString r⟩] }) ∧
    (GetFallbackUri sr service ≠ "" →
      forwardRequestCB sr store r uri cb service env =
        forwardRequest sr store r
          (createForwardURI (GetFallbackUri sr service) (resolvePath r.path).2
            r.rawQuery) service env ∧
      (forwardRequestCB sr store r uri cb service env).calls =
        [createForwardURI (GetFallbackUri sr service) (resolvePath r.path).2
          r.rawQuery]) := by
  have hcb : forwardRequestCB sr store r uri cb service env =
      handleFallbackRequest sr store r service env := by
    unfold forwardRequestCB
    rw [hopen]
    simp
  constructor
  · intro h
    rw [hcb]
    unfold handleFallbackRequest
    rw [h]
    simp
  · intro h
    have hfb : handleFallbackRequest sr store r service env =
        forwardRequest sr store r
          (createForwardURI (GetFallbackUri sr service) (resolvePath r.path).2
            r.rawQuery) service env := by
      unfold handleFallbackRequest
      rw [if_neg h]
    exact ⟨hcb.trans hfb, by rw [hcb, hfb, forwardRequest_calls]⟩

/-- Witness for C4 at concrete inputs: Open breaker, empty fallback URI. -/
theorem breaker_open_fallback_or_404_witness :
    forwardRequestCB regCache [] reqX "http://upstream:9000/x"
        { Enabled := true, State := CBState.Open } "svc1" envCache =
      { err := false, wroteStatus := some 404, wroteBody := none,
        wroteText := some "fallback uri not found", calls := [], cache := [],
        metrics := [⟨GetStatusCode 404, "GET", urlString reqX⟩] } :=
  (breaker_open_fallback_or_404 regCache [] reqX "http://upstream:9000/x"
    { Enabled := true, State := CBState.Open } "svc1" envCache rfl).1 (by decide)

/-- C9 counterexample: with the cache disabled the store does not stay
unchanged — a single successfully forwarded request writes the (drained)
upstream body into the store through the ungated `SetCache` call in
`forwardRequest`. -/
theorem disabled_cache_store_changes :
    HandleRequest regNoCache [] envCache reqX =
      some { status := 200, textBody := none, byteBody := some [66],
             calls := ["http://upstream:9000/x"],
             cache := [("cache-svc1-/svc1/x", CacheVal.bytes [])],
             metrics := [⟨GetStatusCode 200, "GET", "/svc1/x"⟩] } ∧
    ([("cache-svc1-/svc1/x", CacheVal.bytes [])] : CacheStore) ≠ [] := by decide

/-- C9 amended: when a service's cache is disabled the handler never serves a
response from the store — the response (status, bodies, upstream calls,
metrics) is independent of the store's contents — but the store is still
written: every successful non-breaker forward stores the drained (empty)
body under the request's cache key. -/
theorem disabled_cache_never_serves_but_still_writes (sr : Registry)
    (s1 s2 : CacheStore) (env : Env) (r : Request) (svc : Service)
    (hsvc : GetService sr (resolvePath r.path).1 = some svc)
    (hdis : svc.Cache.IsEnabled = false) :
    (HandleRequest sr s1 env r).map respView =
      (HandleRequest sr s2 env r).map respView ∧
    (∀ u resp, env.upstream u = some resp →
      (forwardRequest sr s1 r u (resolvePath r.path).1 env).cache =
        CacheHandler.Set s1 (generateCacheKey (resolvePath r.path).1 r)
          (CacheVal.bytes [])) := by
  constructor
  · simp only [HandleRequest, hsvc]
    by_cases h1 : (svc.IsRateLimiterEnabled && !RateLimitIP env.svcAllow
        r.remoteAddr) = true
    · simp [h1, respView]
    · rw [Bool.not_eq_true] at h1
      by_cases h2 : svc.IsWhitelisted r.remoteAddr = some true
      · cases hauth : svc.Auth.Authenticate env.parse env.now r.authHeader
            r.path with
        | none => simp [h1, h2, hauth]
        | some a =>
          cases a with
          | some e => cases e <;> simp [h1, h2, hauth, respView]
          | none =>
            by_cases h3 : svc.Addr = ""
            · simp [h1, h2, hauth, h3, respView]
            · simp only [h1, Bool.false_eq_true, ite_false, h2, ne_eq,
                not_true_eq_false, hauth, h3, ite_true, if_neg]
              rw [hdis]
              have hview :
                  fwdView (if svc.CircuitBreaker.IsEnabled then
                    forwardRequestCB sr s1 r
                      (createForwardURI svc.Addr (resolvePath r.path).2
                        r.rawQuery) svc.CircuitBreaker (resolvePath r.path).1
                      env
                  else
                    forwardRequest sr s1 r
                      (createForwardURI svc.Addr (resolvePath r.path).2
                        r.rawQuery) (resolvePath r.path).1 env) =
                  fwdView (if svc.CircuitBreaker.IsEnabled then
                    forwardRequestCB sr s2 r
                      (createForwardURI svc.Addr (resolvePath r.path).2
                        r.rawQuery) svc.CircuitBreaker (resolvePath r.path).1
                      env
                  else
                    forwardRequest sr s2 r
                      (createForwardURI svc.Addr (resolvePath r.path).2
                        r.rawQuery) (resolvePath r.path).1 env) := by
                by_cases hcbe : svc.CircuitBreaker.IsEnabled = true
                · simp only [hcbe, ite_true]
                  exact forwardRequestCB_view ..
                · rw [Bool.not_eq_true] at hcbe
                  simp only [hcbe, Bool.false_eq_true, ite_false]
                  exact forwardRequest_view ..
              cases hg1 : CacheHandler.Get s1
                  (generateCacheKey (resolvePath r.path).1 r) with
              | none =>
                cases hg2 : CacheHandler.Get s2
                    (generateCacheKey (resolvePath r.path).1 r) with
                | none => exact respView_forward_tail r _ _ hview
                | some cv2 =>
                  cases cv2 <;> exact respView_forward_tail r _ _ hview
              | some cv1 =>
                cases hg2 : CacheHandler.Get s2
                    (generateCacheKey (resolvePath r.path).1 r) with
                | none =>
                  cases cv1 <;> exact respView_forward_tail r _ _ hview
                | some cv2 =>
                  cases cv1 <;> cases cv2 <;>
                    exact respView_forward_tail r _ _ hview
      · simp [h1, h2, respView]
  · intro u resp h
    unfold forwardRequest
    rw [h]
    unfold SetCache
    rw [hsvc]

/-- Witness for C9 amended at concrete inputs: the store write of the
successful forward in the disabled-cache run. -/
theorem disabled_cache_never_serves_but_still_writes_witness :
    (forwardRequest regNoCache [] reqX "http://upstream:9000/x" "svc1"
        envCache).cache =
      CacheHandler.Set [] "cache-svc1-/svc1/x" (CacheVal.bytes []) := by
  have h := (disabled_cache_never_serves_but_still_writes regNoCache [] []
    envCache reqX svcNoCache (by decide) (by decide)).2
    "http://upstream:9000/x" { Status := 200, Body := [66] } (by decide)
  exact h.trans (by decide)

end ApiGateway
